import Mathlib

/-!
Shallow embedding of the Code4SA/elections-api resource-resolution engine
(src/api/views.py, with the row shapes of src/api/models.py).

Modelling conventions:
* SQLAlchemy tables become Lean lists of `Entity`; `query.filter(...)` becomes
  `List.filter`, `.first()` becomes `List.find?` (the model fixes the arbitrary
  row order of an unordered SQL result to insertion order of the list),
  `.count()` becomes `List.length`, `order_by(col)` becomes an insertion sort on
  the natural-identifier field, and `.limit(m).offset(k)` becomes
  `(List.drop k).take m` on the ordered rows (negative limits and offsets,
  whose behaviour is backend-specific in SQL, are clamped to zero by `Int.toNat`;
  the theorems about slicing assume non-negative paging values).
* Natural identifiers are modelled as `String` uniformly (the source columns are
  `String` for province/municipality and `Integer` for ward/voting district;
  no claim depends on that distinction, and the URL and query-string values the
  identifiers are compared against are strings).
* Flask `request.args.get(k)` truthiness (absent or empty string is falsy)
  is `truthy : Option String → Bool`.
* `ApiException(code, message)` raised for control flow becomes
  `Except ApiException` results; `jsonify` is dropped (the response value is
  returned directly).
-/

namespace ElectionsApi

/-- `event_types = ["provincial", "national"]` (views.py line 13). -/
def event_types : List String := ["provincial", "national"]

/-- `years = [1999, 2004, 2009]` (views.py line 14). -/
def years : List Int := [1999, 2004, 2009]

/-- The four area kinds of `areas = ["province", "municipality", "ward", "voting_district"]`
(views.py line 15), as a closed enumeration. -/
inductive Area where
  | province
  | municipality
  | ward
  | voting_district
deriving DecidableEq

/-- The registry-order list `areas`, coarsest first (views.py line 15). -/
def areasList : List Area := [.province, .municipality, .ward, .voting_district]

/-- The path/query-string name of an area. -/
def Area.name : Area → String
  | .province => "province"
  | .municipality => "municipality"
  | .ward => "ward"
  | .voting_district => "voting_district"

/-- `areas.index(a)`: position in the registry order, coarsest = 0. -/
def Area.idx : Area → Nat
  | .province => 0
  | .municipality => 1
  | .ward => 2
  | .voting_district => 3

/-- One stored row, covering the column shape shared by the five models of
models.py (`pk`, natural identifier, `year`, the two result blobs,
`vote_complete`, and the optional parent foreign keys `province_pk`,
`municipality_pk`, `ward_pk`). Rows of kinds that lack some parent key simply
leave it `none`. -/
structure Entity where
  pk : Nat
  natId : String
  year : Int
  results_provincial : String := ""
  results_national : String := ""
  vote_complete : Bool := true
  provincePk : Option Nat := none
  municipalityPk : Option Nat := none
  wardPk : Option Nat := none
deriving DecidableEq

/-- The backing store: one list of rows per table of models.py. -/
structure Database where
  country : List Entity := []
  provinces : List Entity := []
  municipalities : List Entity := []
  wards : List Entity := []
  voting_districts : List Entity := []

/-- The `models` dispatch dict (views.py lines 209-214): the table that stores
an area kind. -/
def Database.table (db : Database) : Area → List Entity
  | .province => db.provinces
  | .municipality => db.municipalities
  | .ward => db.wards
  | .voting_district => db.voting_districts

/-- The `model_filters` dict (views.py lines 216-229): comparing a row's
relationship to a parent entity compares the corresponding foreign-key column
to the parent's `pk`. `model_filters` has no entries for filtering by
`voting_district` (and none for target area `province`); those combinations are
unreachable behind the filter validation, and the model returns `none` there
(which matches no stored parent key). -/
def Entity.parentPk (r : Entity) : Area → Option Nat
  | .province => r.provincePk
  | .municipality => r.municipalityPk
  | .ward => r.wardPk
  | .voting_district => none

/-- `ApiException(status_code, message)` of views.py lines 58-73. -/
structure ApiException where
  code : Nat
  message : String
deriving DecidableEq

deriving instance DecidableEq for Except

/-- Python truthiness of `request.args.get(k)`: absent (`None`) and the empty
string are falsy, every other string is truthy. -/
def truthy (v : Option String) : Bool := !(v.getD "").isEmpty

/-- ASCII lowercasing of one character (the model of Python `str.lower()` on
the ASCII route/parameter strings this API receives). -/
def lowerChar (c : Char) : Char :=
  if 65 ≤ c.toNat ∧ c.toNat ≤ 90 then Char.ofNat (c.toNat + 32) else c

/-- ASCII lowercasing of a string (Python `str.lower()`). -/
def toLowerStr (s : String) : String := ⟨s.data.map lowerChar⟩

/-- Accumulate decimal digits; `none` when a non-digit appears or when no
digit was seen at all. -/
def digitsToNat : List Char → Option Nat → Option Nat
  | [], acc => acc
  | c :: cs, acc =>
    if 48 ≤ c.toNat ∧ c.toNat ≤ 57 then
      digitsToNat cs (some ((acc.getD 0) * 10 + (c.toNat - 48)))
    else none

/-- The model of Python `int(s)`: an optional minus sign followed by at least
one decimal digit; anything else raises `ValueError` (is `none` here). -/
def parseInt (s : String) : Option Int :=
  match s.data with
  | '-' :: rest => (digitsToNat rest none).map (fun n => -(n : Int))
  | l => (digitsToNat l none).map (fun n => (n : Int))

/-- `validate_event_type` (views.py lines 86-92): lowercase, then membership in
`event_types`. -/
def validate_event_type (s : String) : Except ApiException String :=
  let e := toLowerStr s
  if event_types.contains e then .ok e
  else .error ⟨422, "Incorrect event_type specified. Please use one of: " ++
    String.intercalate ", " event_types ++ "."⟩

/-- `validate_year` (views.py lines 95-104): `int(...)` parse, then membership
in `years`. Both failure modes produce the same message. -/
def validate_year (s : String) : Except ApiException Int :=
  let msg := "Incorrect year specified. Please use one of: " ++
    String.intercalate ", " (years.map toString) ++ "."
  match parseInt s with
  | none => .error ⟨422, msg⟩
  | some y => if years.contains y then .ok y else .error ⟨422, msg⟩

/-- `validate_area` (views.py lines 107-113): lowercase, then membership in
`areas`, returned as the corresponding `Area`. -/
def validate_area (s : String) : Except ApiException Area :=
  match areasList.find? (fun a => a.name == toLowerStr s) with
  | some a => .ok a
  | none => .error ⟨422, "Incorrect area specified. Please use one of: " ++
    String.intercalate ", " (areasList.map Area.name) ++ "."⟩

/-- Modelled from the spec: `serializers.serialize_area(entity, event_type)` is
not under src/; the spec treats it as an opaque call returning a
JSON-serializable record for the given entity and event type. The model keeps
it opaque and injective by wrapping its two arguments. The argument is an
`Option Entity` because views.py line 232 can pass the result of a failed
`.first()` lookup; the spec only guarantees tolerance of a missing entity at
the year-overview route, and in no reading does the serializer raise the 404
`ApiException` of views.py. -/
structure Serialized where
  entity : Option Entity
  event_type : String
deriving DecidableEq

/-- The opaque serializer call (see `Serialized`). -/
def serialize_area (e : Option Entity) (event_type : String) : Serialized :=
  ⟨e, event_type⟩

/-- The `{count, next, results}` collection envelope (views.py lines 260-264). -/
structure Envelope where
  count : Nat
  next : Option String
  results : List Serialized
deriving DecidableEq

/-- A `results_by_area` response: a bare serialized record (single-entity
branch) or a collection envelope. -/
inductive AreaResponse where
  | single (r : Serialized)
  | collection (env : Envelope)
deriving DecidableEq

/-- The query string of a request to the area route: the four possible area
filter parameters plus `page`, `per_page` and `all_results`, each absent or a
string. -/
structure RawQuery where
  province : Option String := none
  municipality : Option String := none
  ward : Option String := none
  voting_district : Option String := none
  page : Option String := none
  per_page : Option String := none
  all_results : Option String := none

/-- `request.args.get(tmp_area)` for an area name. -/
def RawQuery.areaParam (q : RawQuery) : Area → Option String
  | .province => q.province
  | .municipality => q.municipality
  | .ward => q.ward
  | .voting_district => q.voting_district

/-- The filter-parameter scan of views.py lines 176-187: iterate
`reversed(areas)` (finest first), stop at the first truthy parameter; if its
registry index is `>=` the target area's index raise 422, else it becomes the
single honored `(filter_area, filter_id)`. -/
def validate_filter_params (area : Area) (q : RawQuery) :
    Except ApiException (Option (Area × String)) :=
  match areasList.reverse.find? (fun ta => truthy (q.areaParam ta)) with
  | none => .ok none
  | some fa =>
    if fa.idx ≥ area.idx then
      .error ⟨422, "The specified filter parameter cannot be used in this query."⟩
    else .ok (some (fa, (q.areaParam fa).getD ""))

/-- `page` parsing (views.py lines 190-196): default 0; only a truthy value is
parsed, and a parse failure is a 422. -/
def parse_page (v : Option String) : Except ApiException Int :=
  if truthy v then
    match parseInt (v.getD "") with
    | some n => .ok n
    | none => .error ⟨422, "Please specify a valid 'page'."⟩
  else .ok 0

/-- `per_page` parsing (views.py lines 191-202): default 50; only a truthy
value is parsed, and a parse failure is a 422. -/
def parse_per_page (v : Option String) : Except ApiException Int :=
  if truthy v then
    match parseInt (v.getD "") with
    | some n => .ok n
    | none => .error ⟨422, "Please specify a valid 'per_page'."⟩
  else .ok 50

/-- Lexicographic comparison of character lists by code point: the model of
the database collation behind `ORDER BY` on an identifier column. -/
def lexLE : List Char → List Char → Bool
  | [], _ => true
  | _ :: _, [] => false
  | a :: as, b :: bs =>
    if a.toNat = b.toNat then lexLE as bs else decide (a.toNat < b.toNat)

/-- Lexicographic string comparison (see `lexLE`). -/
def strLE (s t : String) : Bool := lexLE s.data t.data

/-- The ordering used by `order_by(models[area][1])`: ascending natural
identifier. -/
def rowLE (u v : Entity) : Prop := strLE u.natId v.natId = true

instance : DecidableRel rowLE := fun u v =>
  inferInstanceAs (Decidable (strLE u.natId v.natId = true))

instance : IsTotal Entity rowLE := by
  constructor
  have H : ∀ a b : List Char, lexLE a b = true ∨ lexLE b a = true := by
    intro a
    induction a with
    | nil => intro b; left; rfl
    | cons x xs ih =>
      intro b
      cases b with
      | nil => right; rfl
      | cons y ys =>
        by_cases hxy : x.toNat = y.toNat
        · rcases ih ys with h | h
          · left; simp [lexLE, hxy, h]
          · right; simp [lexLE, hxy.symm, h]
        · rcases Nat.lt_or_ge x.toNat y.toNat with h | h
          · left; simp [lexLE, hxy, h]
          · right
            have hlt : y.toNat < x.toNat := lt_of_le_of_ne h (fun e => hxy e.symm)
            have hne : y.toNat ≠ x.toNat := Nat.ne_of_lt hlt
            simp [lexLE, hne, hlt]
  exact fun u v => H u.natId.data v.natId.data

instance : IsTrans Entity rowLE := by
  constructor
  have H : ∀ a b c : List Char,
      lexLE a b = true → lexLE b c = true → lexLE a c = true := by
    intro a
    induction a with
    | nil => intro b c _ _; rfl
    | cons x xs ih =>
      intro b c h1 h2
      cases b with
      | nil => simp [lexLE] at h1
      | cons y ys =>
        cases c with
        | nil => simp [lexLE] at h2
        | cons z zs =>
          by_cases hxy : x.toNat = y.toNat <;> by_cases hyz : y.toNat = z.toNat
          · simp only [lexLE, hxy, if_pos rfl] at h1
            simp only [lexLE, hyz, if_pos rfl] at h2
            simp [lexLE, hxy, hyz, ih ys zs h1 h2]
          · simp only [lexLE, if_neg hyz] at h2
            have hlt : y.toNat < z.toNat := of_decide_eq_true h2
            have : x.toNat < z.toNat := hxy ▸ hlt
            simp [lexLE, Nat.ne_of_lt this, this]
          · simp only [lexLE, if_neg hxy] at h1
            have hlt : x.toNat < y.toNat := of_decide_eq_true h1
            have : x.toNat < z.toNat := hyz ▸ hlt
            simp [lexLE, Nat.ne_of_lt this, this]
          · simp only [lexLE, if_neg hxy] at h1
            simp only [lexLE, if_neg hyz] at h2
            have hlt1 : x.toNat < y.toNat := of_decide_eq_true h1
            have hlt2 : y.toNat < z.toNat := of_decide_eq_true h2
            have : x.toNat < z.toNat := lt_trans hlt1 hlt2
            simp [lexLE, Nat.ne_of_lt this, this]
  exact fun u v w h1 h2 => H u.natId.data v.natId.data w.natId.data h1 h2

/-- `order_by(models[area][1])`: sort rows by ascending natural identifier. -/
def sortRows (l : List Entity) : List Entity := List.insertionSort rowLE l

/-- The rows a collection request resolves, before ordering and paging
(views.py lines 238-249): with a filter, first `.first()`-resolve the filter
entity by natural identifier alone (line 238; `none` means the 404 of line
240), then keep rows of the target table with the requested year whose parent
key references it; without a filter, keep rows with the requested year. -/
def matchingRows (db : Database) (y : Int) (a : Area) :
    Option (Area × String) → Option (List Entity)
  | none => some ((db.table a).filter (fun r => r.year == y))
  | some (fa, fid) =>
    match (db.table fa).find? (fun r => r.natId == fid) with
    | none => none
    | some obj =>
      some ((db.table a).filter (fun r => r.year == y && r.parentPk fa == some obj.pk))

/-- The next-page condition `count > (page + 1) * per_page` (views.py
line 253). -/
def hasNext (count : Nat) (page per_page : Int) : Bool :=
  (page + 1) * per_page < (count : Int)

/-- The next-page link of views.py line 254:
`url_root + event_type + "/" + year + "/" + area + "/?page=" + (page+1)`.
Only the page number is carried; filters and `per_page` are dropped. -/
def nextUrl (root et : String) (y : Int) (a : Area) (p : Int) : String :=
  root ++ et ++ "/" ++ toString y ++ "/" ++ a.name ++ "/?page=" ++ toString p

/-- The fetch of views.py lines 242-251: all ordered rows when `all_results`
is set, otherwise `LIMIT per_page OFFSET page*per_page` on the ordered rows. -/
def pagedItems (rows : List Entity) (page per_page : Int) (allR : Bool) :
    List Entity :=
  let sorted := sortRows rows
  if allR then sorted
  else ((sorted.drop (page * per_page).toNat).take per_page.toNat)

/-- The 404 of views.py line 240 (filter entity not found). -/
def filterNotFound : ApiException :=
  ⟨404, "Could not find the specified filter. Check that you have provided a valid ID, or remove the filter."⟩

/-- The 404 of views.py line 259 (empty result list). -/
def notFound : ApiException := ⟨404, "Not Found"⟩

/-- The body of `results_by_area` after validation and parsing (views.py lines
231-265). The single-entity branch (lines 231-233) looks the row up by natural
identifier alone — no year filter — and serializes whatever `.first()`
returned, including `None`; it raises nothing. The collection branches build
`count`, the ordered/paged `items`, the `next` link, serialize, and raise 404
on an empty result list. -/
def handleParsed (db : Database) (root et : String) (y : Int) (a : Area)
    (area_id : Option String) (filt : Option (Area × String))
    (page per_page : Int) (allR : Bool) : Except ApiException AreaResponse :=
  if truthy area_id then
    .ok (.single (serialize_area
      ((db.table a).find? (fun r => r.natId == area_id.getD "")) et))
  else
    match matchingRows db y a filt with
    | none => .error filterNotFound
    | some rows =>
      let count := rows.length
      let items := pagedItems rows page per_page allR
      let next : Option String :=
        if hasNext count page per_page then some (nextUrl root et y a (page + 1))
        else none
      let results := items.map (fun r => serialize_area (some r) et)
      if results.isEmpty then .error notFound
      else .ok (.collection ⟨count, next, results⟩)

/-- `results_by_area` (views.py lines 166-265): validate the path segments,
validate the filter parameters, parse paging, read the `all_results` flag, and
dispatch, in source order. -/
def results_by_area (db : Database) (root event_type year area : String)
    (area_id : Option String) (q : RawQuery) : Except ApiException AreaResponse := do
  let et ← validate_event_type event_type
  let y ← validate_year year
  let a ← validate_area area
  let filt ← validate_filter_params a q
  let page ← parse_page q.page
  let per_page ← parse_per_page q.per_page
  let allR := truthy q.all_results
  handleParsed db root et y a area_id filt page per_page allR

/-- The year-overview response (views.py lines 145-160): the serialized
country record plus one link per area, `ward` only from 2009 on. -/
structure Overview where
  results : Serialized
  links : List (Area × String)
deriving DecidableEq

/-- `results_overall` (views.py lines 145-160). `out['results']` projects the
`results` key of the opaque serialized record; the model keeps the whole
record. The link loop keeps an area iff `area != 'ward' or year >= 2009`. -/
def results_overall (db : Database) (root event_type year : String) :
    Except ApiException Overview := do
  let et ← validate_event_type event_type
  let y ← validate_year year
  let item := db.country.find? (fun r => r.year == y)
  .ok ⟨serialize_area item et,
    (areasList.filter (fun a => a ≠ .ward || decide (2009 ≤ y))).map
      (fun a => (a, root ++ et ++ "/" ++ toString y ++ "/" ++ a.name ++ "/"))⟩

/-- The request denoted by a next-page link. The link of views.py line 254 is
`url_root + event_type + "/" + year + "/" + area + "/?page=" + (page+1)`: its
path segments are the current event type, year and area, and the only query
parameter it carries is `page`, so under the request parsing above the denoted
request has no filter, the default `per_page = 50`, no `all_results`, and no
`area_id`. -/
def follow (db : Database) (root et : String) (y : Int) (a : Area) (p : Int) :
    Except ApiException AreaResponse :=
  handleParsed db root et y a none none p 50 false

/-- A base URL for concrete requests. -/
def rootUrl : String := "http://api/"

/-- Three provinces for year 1999 with ascending identifiers. -/
def db3 : Database :=
  { provinces := [⟨1, "EC", 1999, "", "", true, none, none, none⟩,
                  ⟨2, "GT", 1999, "", "", true, none, none, none⟩,
                  ⟨3, "WC", 1999, "", "", true, none, none, none⟩] }

/-- 120 provinces for year 1999 with ascending three-digit identifiers. -/
def db120 : Database :=
  { provinces := (List.range 120).map
      (fun i => ⟨i, toString (100 + i), 1999, "", "", true, none, none, none⟩) }

/-- The single province row of the year-mismatch store: identifier `X` exists
only for year 2004. -/
def provX2004 : Entity := ⟨1, "X", 2004, "", "", true, none, none, none⟩

/-- A store whose only province row is `(year 2004, id X)`. -/
def dbC1 : Database := { provinces := [provX2004] }

/-- A store where identifier `P5` names a province in 1999 (listed first) and
in 2004, and one municipality of 2004 belongs to the 2004 province (pk 2). -/
def dbC2 : Database :=
  { provinces := [⟨1, "P5", 1999, "", "", true, none, none, none⟩,
                  ⟨2, "P5", 2004, "", "", true, none, none, none⟩],
    municipalities := [⟨10, "M1", 2004, "", "", true, some 2, none, none⟩] }

/-- A store with one 1999 province and no municipalities: a valid filter
entity whose child collection is empty. -/
def dbC6 : Database :=
  { provinces := [⟨1, "P1", 1999, "", "", true, none, none, none⟩] }

/-- A single-entity lookup as the spec words it ("the one row of the target
entity kind matching (year, natural identifier = area_id)") — for comparison
with the identifier-only lookup of views.py line 232. -/
def lookup_single_spec (db : Database) (y : Int) (a : Area) (aid : String) :
    Option Entity :=
  (db.table a).find? (fun r => r.year == y && r.natId == aid)

/-- Filter-entity resolution as the spec words it ("resolve the filter entity
itself by (year, its natural identifier = filter_id)") — for comparison with
the identifier-only resolution of views.py line 238. -/
def resolve_filter_spec (db : Database) (y : Int) (fa : Area) (fid : String) :
    Option Entity :=
  (db.table fa).find? (fun r => r.year == y && r.natId == fid)

/-! ## Helper lemmas -/

/-- Inversion for a collection response: an `ok` collection result determines
each envelope field, and the result list is never empty. -/
theorem handleParsed_ok_collection {db : Database} {root et : String} {y : Int}
    {a : Area} {filt : Option (Area × String)} {page per_page : Int}
    {allR : Bool} {env : Envelope}
    (h : handleParsed db root et y a none filt page per_page allR =
      .ok (.collection env)) :
    ∃ rows, matchingRows db y a filt = some rows ∧
      env.count = rows.length ∧
      env.results =
        (pagedItems rows page per_page allR).map (fun r => serialize_area (some r) et) ∧
      env.next = (if hasNext rows.length page per_page then
        some (nextUrl root et y a (page + 1)) else none) ∧
      env.results ≠ [] := by
  unfold handleParsed at h
  rw [show truthy none = false from rfl] at h
  simp only [Bool.false_eq_true, if_false] at h
  cases hm : matchingRows db y a filt with
  | none => rw [hm] at h; cases h
  | some rows =>
    rw [hm] at h
    simp only at h
    split at h
    · cases h
    · rename_i hne
      injection h with h
      injection h with h
      refine ⟨rows, rfl, ?_, ?_, ?_, ?_⟩
      · rw [← h]
      · rw [← h]
      · rw [← h]
      · rw [← h]
        simpa [List.isEmpty_iff] using hne

/-- An empty paged item list makes the collection branch raise the 404 of
views.py line 259. -/
theorem empty_items_404 {db : Database} {root et : String} {y : Int} {a : Area}
    {filt : Option (Area × String)} {page per_page : Int} {allR : Bool}
    {rows : List Entity}
    (hrows : matchingRows db y a filt = some rows)
    (hempty : pagedItems rows page per_page allR = []) :
    handleParsed db root et y a none filt page per_page allR = .error notFound := by
  unfold handleParsed
  rw [show truthy none = false from rfl]
  simp only [Bool.false_eq_true, if_false]
  rw [hrows]
  simp [hempty]

/-! ## Claims -/

/-- C5: for every paged collection response, the next link is non-null iff
`count > (page + 1) * per_page` (views.py line 253); the 120-row, per_page-50
instance is checked in the witness. -/
theorem next_present_iff_count_exceeds_window {db : Database} {root et : String}
    {y : Int} {a : Area} {filt : Option (Area × String)} {page per_page : Int}
    {allR : Bool} {env : Envelope}
    (h : handleParsed db root et y a none filt page per_page allR =
      .ok (.collection env)) :
    env.next.isSome = true ↔ (env.count : Int) > (page + 1) * per_page := by
  obtain ⟨rows, _, hcount, _, hnext, _⟩ := handleParsed_ok_collection h
  rw [hcount, hnext]
  constructor
  · intro hs
    by_cases hc : hasNext rows.length page per_page
    · simpa [hasNext, gt_iff_lt] using hc
    · rw [if_neg hc] at hs; cases hs
  · intro hc
    have : hasNext rows.length page per_page = true := by
      simpa [hasNext] using hc
    rw [if_pos this]
    rfl

set_option maxRecDepth 40000 in
/-- C5 witness: against 120 rows with `per_page = 50`, pages 0 and 1 carry a
next link and page 2 does not. -/
theorem next_present_iff_count_exceeds_window_witness :
    (∃ env, handleParsed db120 rootUrl "provincial" 1999 .province none none
        0 50 false = .ok (.collection env) ∧ env.count = 120 ∧
        env.next.isSome = true) ∧
    (∃ env, handleParsed db120 rootUrl "provincial" 1999 .province none none
        1 50 false = .ok (.collection env) ∧ env.count = 120 ∧
        env.next.isSome = true) ∧
    (∃ env, handleParsed db120 rootUrl "provincial" 1999 .province none none
        2 50 false = .ok (.collection env) ∧ env.count = 120 ∧
        env.next = none) := by
  refine ⟨⟨_, rfl, by decide, ?_⟩, ⟨_, rfl, by decide, ?_⟩, ⟨_, rfl, by decide, ?_⟩⟩
  · have h := @next_present_iff_count_exceeds_window db120 rootUrl "provincial"
      1999 .province none 0 50 false _ (by rfl)
    exact h.mpr (by decide)
  · have h := @next_present_iff_count_exceeds_window db120 rootUrl "provincial"
      1999 .province none 1 50 false _ (by rfl)
    exact h.mpr (by decide)
  · have h := @next_present_iff_count_exceeds_window db120 rootUrl "provincial"
      1999 .province none 2 50 false _ (by rfl)
    exact Option.not_isSome_iff_eq_none.mp (fun hs => absurd (h.mp hs) (by decide))

/-- C6: a collection request whose resolved, paged result list is empty fails
with the 404 of views.py line 259 — even when the filter entity was found —
rather than returning an empty 200 list. -/
theorem empty_collection_yields_404 {db : Database} {root et : String} {y : Int}
    {a : Area} {filt : Option (Area × String)} {page per_page : Int}
    {allR : Bool} {rows : List Entity}
    (hrows : matchingRows db y a filt = some rows)
    (hempty : pagedItems rows page per_page allR = []) :
    handleParsed db root et y a none filt page per_page allR =
      .error notFound :=
  empty_items_404 hrows hempty

/-- C6 witness: a store with one 1999 province and no municipalities — the
filter entity `P1` exists, its child collection is empty, and the request
fails with 404. -/
theorem empty_collection_yields_404_witness :
    matchingRows dbC6 1999 .municipality (some (.province, "P1")) = some [] ∧
    handleParsed dbC6 rootUrl "provincial" 1999 .municipality none
      (some (.province, "P1")) 0 50 false = .error notFound :=
  ⟨by decide, @empty_collection_yields_404 dbC6 rootUrl "provincial" 1999
    .municipality (some (.province, "P1")) 0 50 false [] (by decide) (by decide)⟩

/-- C4: the filter parameters are scanned finest to coarsest; with no truthy
area parameter there is no filter, and when `f` is the finest truthy area
parameter it becomes the sole honored filter, accepted iff its registry
position is strictly below the target area's, and rejected with the 422 of
views.py line 186 otherwise. -/
theorem filter_scan_accepts_iff_strictly_coarser :
    (∀ (area : Area) (q : RawQuery),
      (∀ b : Area, truthy (q.areaParam b) = false) →
      validate_filter_params area q = .ok none) ∧
    (∀ (area f : Area) (q : RawQuery),
      truthy (q.areaParam f) = true →
      (∀ b : Area, f.idx < b.idx → truthy (q.areaParam b) = false) →
      validate_filter_params area q =
        if f.idx < area.idx then .ok (some (f, (q.areaParam f).getD ""))
        else .error ⟨422, "The specified filter parameter cannot be used in this query."⟩) := by
  constructor
  · intro area q hnone
    unfold validate_filter_params
    rw [show areasList.reverse =
      [.voting_district, .ward, .municipality, .province] from rfl]
    simp [List.find?, hnone]
  · intro area f q hf hfinest
    unfold validate_filter_params
    rw [show areasList.reverse =
      [.voting_district, .ward, .municipality, .province] from rfl]
    have hsel : List.find? (fun ta => truthy (q.areaParam ta))
        [.voting_district, .ward, .municipality, .province] = some f := by
      cases f with
      | province =>
        simp [List.find?, hf, hfinest .voting_district (by decide),
          hfinest .ward (by decide), hfinest .municipality (by decide)]
      | municipality =>
        simp [List.find?, hf, hfinest .voting_district (by decide),
          hfinest .ward (by decide)]
      | ward =>
        simp [List.find?, hf, hfinest .voting_district (by decide)]
      | voting_district => simp [List.find?, hf]
    rw [hsel]
    rcases Nat.lt_or_ge f.idx area.idx with h | h
    · simp [Nat.not_le.mpr h, h]
    · simp [h, Nat.not_lt.mpr h]

/-- C4 witness: with both `ward` and `municipality` supplied, `ward` (the
finer) wins; it is accepted against a voting-district collection and rejected
with 422 against a municipality collection. -/
theorem filter_scan_accepts_iff_strictly_coarser_witness :
    validate_filter_params .voting_district
      { ward := some "123", municipality := some "M1" } =
      .ok (some (.ward, "123")) ∧
    validate_filter_params .municipality
      { ward := some "123", municipality := some "M1" } =
      .error ⟨422, "The specified filter parameter cannot be used in this query."⟩ := by
  constructor
  · have h := filter_scan_accepts_iff_strictly_coarser.2 .voting_district .ward
      { ward := some "123", municipality := some "M1" } (by decide)
      (by intro b hb; revert hb; cases b <;> decide)
    simpa using h
  · have h := filter_scan_accepts_iff_strictly_coarser.2 .municipality .ward
      { ward := some "123", municipality := some "M1" } (by decide)
      (by intro b hb; revert hb; cases b <;> decide)
    simpa using h

/-- C7: for every valid event type and year, the year overview links province,
municipality and voting_district, and links ward iff the year is at least 2009
(views.py lines 157-159). -/
theorem overview_ward_link_iff_2009 {db : Database} {root et yr : String}
    {et' : String} {y : Int}
    (h1 : validate_event_type et = .ok et')
    (h2 : validate_year yr = .ok y) :
    ∃ out, results_overall db root et yr = .ok out ∧
      Area.province ∈ out.links.map Prod.fst ∧
      Area.municipality ∈ out.links.map Prod.fst ∧
      Area.voting_district ∈ out.links.map Prod.fst ∧
      (Area.ward ∈ out.links.map Prod.fst ↔ 2009 ≤ y) := by
  have hout : results_overall db root et yr = .ok
      ⟨serialize_area (db.country.find? (fun r => r.year == y)) et',
        (areasList.filter (fun a => a ≠ .ward || decide (2009 ≤ y))).map
          (fun a => (a, root ++ et' ++ "/" ++ toString y ++ "/" ++ a.name ++ "/"))⟩ := by
    unfold results_overall
    rw [h1, h2]
    rfl
  refine ⟨_, hout, ?_, ?_, ?_, ?_⟩ <;> simp +decide [areasList]

/-- C7 witness: at `(provincial, 2009)` the ward link is present; at
`(provincial, 1999)` it is absent. -/
theorem overview_ward_link_iff_2009_witness :
    (∃ out, results_overall db3 rootUrl "provincial" "2009" = .ok out ∧
      Area.ward ∈ out.links.map Prod.fst) ∧
    (∃ out, results_overall db3 rootUrl "provincial" "1999" = .ok out ∧
      Area.ward ∉ out.links.map Prod.fst) := by
  constructor
  · obtain ⟨out, hout, _, _, _, hw⟩ := @overview_ward_link_iff_2009 db3 rootUrl
      "provincial" "2009" "provincial" 2009 (by decide) (by decide)
    exact ⟨out, hout, hw.mpr (by decide)⟩
  · obtain ⟨out, hout, _, _, _, hw⟩ := @overview_ward_link_iff_2009 db3 rootUrl
      "provincial" "1999" "provincial" 1999 (by decide) (by decide)
    exact ⟨out, hout, fun hm => by
      have := hw.mp hm
      omega⟩

/-- C1 (failing input): requesting `/provincial/1999/province/X/` against a
store whose only province row is `(year 2004, id X)` returns that 2004 row
serialized — the lookup of views.py line 232 ignores the year — and
requesting the nonexistent id `Y` returns the serializer applied to a missing
row rather than a 404; the spec-worded `(year, id)` lookup finds nothing in
either case, so the claim requires 404 twice. -/
theorem single_lookup_ignores_year_and_never_404s :
    results_by_area dbC1 rootUrl "provincial" "1999" "province" (some "X") {} =
      .ok (.single (serialize_area (some provX2004) "provincial")) ∧
    provX2004.year = 2004 ∧
    lookup_single_spec dbC1 1999 .province "X" = none ∧
    results_by_area dbC1 rootUrl "provincial" "1999" "province" (some "Y") {} =
      .ok (.single (serialize_area none "provincial")) ∧
    lookup_single_spec dbC1 1999 .province "Y" = none := by
  refine ⟨by decide, by decide, by decide, by decide, by decide⟩

/-- C2 (failing input): identifier `P5` names a province in 1999 and in 2004;
the 1999 row is listed first, so the `.first()` of views.py line 238 — which
ignores the year — resolves the 1999 province for a 2004 request, whose 2004
municipality children do not reference it, and the request fails with the
line-259 404. The spec-worded `(year, id)` resolution finds the 2004 province
(pk 2), which has a matching 2004 municipality child, so the claim requires a
successful collection. -/
theorem filter_resolution_ignores_year :
    results_by_area dbC2 rootUrl "provincial" "2004" "municipality" none
      { province := some "P5" } = .error notFound ∧
    resolve_filter_spec dbC2 2004 .province "P5" =
      some ⟨2, "P5", 2004, "", "", true, none, none, none⟩ ∧
    dbC2.municipalities.filter
      (fun r => r.year == 2004 && r.parentPk .province == some 2) ≠ [] := by
  refine ⟨by decide, by decide, by decide⟩

/-- C9: any truthy (non-empty) `all_results` value — including "false" and
"0" — enables all-results mode (views.py lines 204-207); only absence or the
empty string leaves paging in effect. Against three rows with `per_page=1`,
the raw query `all_results=false` returns all 3 results while the same query
without `all_results` returns 1. -/
theorem all_results_any_nonempty_value :
    (∀ s : String, s ≠ "" → truthy (some s) = true) ∧
    truthy (some "false") = true ∧
    truthy (some "0") = true ∧
    truthy none = false ∧
    truthy (some "") = false ∧
    (∃ env, results_by_area db3 rootUrl "provincial" "1999" "province" none
      { per_page := some "1", all_results := some "false" } =
      .ok (.collection env) ∧ env.results.length = 3) ∧
    (∃ env, results_by_area db3 rootUrl "provincial" "1999" "province" none
      { per_page := some "1" } = .ok (.collection env) ∧
      env.results.length = 1) := by
  refine ⟨?_, by decide, by decide, by decide, by decide,
    ⟨_, rfl, by decide⟩, ⟨_, rfl, by decide⟩⟩
  intro s hs
  have : s.isEmpty = false := by
    rcases h : s.isEmpty with _ | _
    · rfl
    · exact absurd ((String.isEmpty_iff s).mp h) hs
  simp [truthy, this]

/-- C9 witness. -/
theorem all_results_any_nonempty_value_witness :
    truthy (some "no") = true :=
  all_results_any_nonempty_value.1 "no" (by decide)

/-- C10 (amended): `page` and `per_page` accept every parseable integer —
zero and negatives included — without a 422 (views.py lines 189-202), and
with `per_page = 0` the next-page condition of line 253 reduces to
`count > 0`; but in paged mode a zero `per_page` fetches no rows, so the
request fails with the line-259 404 instead of returning a response, and only
with `all_results` set does the response carry a non-null next link. -/
theorem paging_accepts_all_ints_zero_per_page :
    (∀ (s : String) (n : Int), parseInt s = some n → parse_page (some s) = .ok n) ∧
    (∀ (s : String) (n : Int), parseInt s = some n → parse_per_page (some s) = .ok n) ∧
    (∀ (count : Nat) (page : Int), hasNext count page 0 = true ↔ 0 < count) ∧
    (∀ (db : Database) (root et : String) (y : Int) (a : Area)
      (filt : Option (Area × String)) (page : Int) (rows : List Entity),
      matchingRows db y a filt = some rows →
      handleParsed db root et y a none filt page 0 false = .error notFound) ∧
    (∀ (db : Database) (root et : String) (y : Int) (a : Area)
      (filt : Option (Area × String)) (page : Int) (env : Envelope),
      handleParsed db root et y a none filt page 0 true = .ok (.collection env) →
      env.next.isSome = true) := by
  have haccept : ∀ (s : String) (n : Int), parseInt s = some n →
      truthy (some s) = true := by
    intro s n h
    rcases he : s.isEmpty with _ | _
    · simp [truthy, he]
    · have : s = "" := (String.isEmpty_iff s).mp he
      subst this
      rw [show parseInt "" = none from rfl] at h
      cases h
  refine ⟨?_, ?_, ?_, ?_, ?_⟩
  · intro s n h
    simp [parse_page, haccept s n h, h]
  · intro s n h
    simp [parse_per_page, haccept s n h, h]
  · intro count page
    simp [hasNext, Int.natCast_pos]
  · intro db root et y a filt page rows hrows
    exact empty_items_404 hrows (by simp [pagedItems])
  · intro db root et y a filt page env h
    obtain ⟨rows, _, _, hres, hnext, hne⟩ := handleParsed_ok_collection h
    have hrows : rows ≠ [] := by
      intro hnil
      apply hne
      rw [hres, hnil]
      rfl
    have hlen : 0 < rows.length := List.length_pos.mpr hrows
    have hhn : hasNext rows.length page 0 = true := by
      simpa [hasNext, Int.natCast_pos] using hlen
    rw [hnext, if_pos hhn]
    rfl

/-- C10 witness: `-7` and `0` are accepted for paging, the zero-`per_page`
next condition holds with three rows, paged mode with `per_page = 0` fails
with 404, and all-results mode with `per_page = 0` carries a next link. -/
theorem paging_accepts_all_ints_zero_per_page_witness :
    parse_page (some "-7") = .ok (-7) ∧
    parse_per_page (some "0") = .ok 0 ∧
    hasNext 3 5 0 = true ∧
    handleParsed db3 rootUrl "provincial" 1999 .province none none 0 0 false =
      .error notFound ∧
    (∃ env, handleParsed db3 rootUrl "provincial" 1999 .province none none
      0 0 true = .ok (.collection env) ∧ env.next.isSome = true) := by
  refine ⟨paging_accepts_all_ints_zero_per_page.1 "-7" (-7) (by decide),
    paging_accepts_all_ints_zero_per_page.2.1 "0" 0 (by decide),
    (paging_accepts_all_ints_zero_per_page.2.2.1 3 5).mpr (by decide),
    paging_accepts_all_ints_zero_per_page.2.2.2.1 db3 rootUrl "provincial"
      1999 .province none 0 db3.provinces (by decide),
    ⟨_, rfl, paging_accepts_all_ints_zero_per_page.2.2.2.2 db3 rootUrl
      "provincial" 1999 .province none 0 _ (by rfl)⟩⟩

/-- C10 counterexample: the raw request `per_page=0` against three rows is
accepted by parsing (no 422) but produces the 404 of views.py line 259 — no
response with a next link exists in paged mode. -/
theorem zero_per_page_is_404 :
    results_by_area db3 rootUrl "provincial" "1999" "province" none
      { per_page := some "0" } = .error notFound := by
  decide

/-- C8: with `all_results` set, the results are exactly the `count` matching
rows, each serialized, in ascending natural-identifier order (a sorted
permutation of the matching rows), for any `page` and `per_page`; without the
flag (and non-negative paging), the results are the slice of that same
ordered sequence at offset `page * per_page` of length at most `per_page`
(views.py lines 241-251). -/
theorem collection_results_ordered_and_paged {db : Database} {root et : String}
    {y : Int} {a : Area} {filt : Option (Area × String)} {page per_page : Int}
    {rows : List Entity}
    (hrows : matchingRows db y a filt = some rows) :
    (∀ env, handleParsed db root et y a none filt page per_page true =
        .ok (.collection env) →
      env.count = rows.length ∧
      env.results.length = rows.length ∧
      env.results = (sortRows rows).map (fun r => serialize_area (some r) et) ∧
      (sortRows rows).Perm rows ∧
      List.Sorted rowLE (sortRows rows)) ∧
    (∀ env, 0 ≤ page → 0 ≤ per_page →
      handleParsed db root et y a none filt page per_page false =
        .ok (.collection env) →
      env.count = rows.length ∧
      env.results = (((sortRows rows).drop (page * per_page).toNat).take
        per_page.toNat).map (fun r => serialize_area (some r) et) ∧
      (env.results.length : Int) ≤ per_page ∧
      (sortRows rows).Perm rows ∧
      List.Sorted rowLE (sortRows rows)) := by
  have hperm : (sortRows rows).Perm rows := List.perm_insertionSort rowLE rows
  have hsorted : List.Sorted rowLE (sortRows rows) :=
    List.sorted_insertionSort rowLE rows
  constructor
  · intro env h
    obtain ⟨rows2, hm, hcount, hres, _, _⟩ := handleParsed_ok_collection h
    rw [hrows] at hm
    injection hm with hm
    subst hm
    refine ⟨hcount, ?_, ?_, hperm, hsorted⟩
    · rw [hres]
      simp only [pagedItems, if_pos rfl, List.length_map]
      exact hperm.length_eq
    · rw [hres]
      simp [pagedItems]
  · intro env hp hpp h
    obtain ⟨rows2, hm, hcount, hres, _, _⟩ := handleParsed_ok_collection h
    rw [hrows] at hm
    injection hm with hm
    subst hm
    have hresult : env.results = (((sortRows rows).drop (page * per_page).toNat).take
        per_page.toNat).map (fun r => serialize_area (some r) et) := by
      rw [hres]
      simp [pagedItems]
    refine ⟨hcount, hresult, ?_, hperm, hsorted⟩
    have h1 : env.results.length ≤ per_page.toNat := by
      rw [hresult, List.length_map]
      exact le_trans (List.length_take_le _ _) (le_refl _)
    omega

set_option maxRecDepth 40000 in
/-- C8 witness: against three rows with `per_page = 2`, all-results mode
returns all 3 rows and paged mode returns the 2-row slice. -/
theorem collection_results_ordered_and_paged_witness :
    (∃ env, handleParsed db3 rootUrl "provincial" 1999 .province none none
      0 2 true = .ok (.collection env) ∧ env.count = 3 ∧
      env.results.length = 3) ∧
    (∃ env, handleParsed db3 rootUrl "provincial" 1999 .province none none
      0 2 false = .ok (.collection env) ∧ env.count = 3 ∧
      env.results.length = 2 ∧ (env.results.length : Int) ≤ 2) := by
  have H := @collection_results_ordered_and_paged db3 rootUrl "provincial"
    1999 .province none 0 2 db3.provinces (by decide)
  constructor
  · obtain ⟨hc, hl, _, _, _⟩ := H.1 _ (by rfl)
    exact ⟨_, rfl, hc.trans (by decide), hl.trans (by decide)⟩
  · obtain ⟨hc, _, hle, _, _⟩ := H.2 _ (by decide) (by decide) (by rfl)
    exact ⟨_, rfl, hc.trans (by decide), by decide, hle⟩

/-- Case analysis on the request denoted by a next-page link: it is an
unfiltered collection request at the default page size, so it either fails
with the empty-collection 404 or returns a non-empty envelope whose count is
the unfiltered year count and whose next link follows the line-253/254
rule. -/
theorem follow_cases (db : Database) (root et : String) (y : Int) (a : Area)
    (q : Int) :
    follow db root et y a q = .error notFound ∨
    ∃ env, follow db root et y a q = .ok (.collection env) ∧
      env.results ≠ [] ∧
      env.count = ((db.table a).filter (fun r => r.year == y)).length ∧
      env.next = (if hasNext env.count q 50 then some (nextUrl root et y a (q + 1))
        else none) := by
  unfold follow handleParsed
  rw [show truthy none = false from rfl]
  simp only [Bool.false_eq_true, if_false]
  rw [show matchingRows db y a none =
    some ((db.table a).filter (fun r => r.year == y)) from rfl]
  simp only
  split
  · left; rfl
  · rename_i hne
    right
    exact ⟨_, rfl, by simpa [List.isEmpty_iff] using hne, rfl, rfl⟩

/-- C3 (amended): every non-null next link of a collection response with
non-negative page points at the page-incremented request; the denoted request
(which keeps only the page number: no filter, default `per_page` 50) yields
either further results or the 404 of an exhausted page; every followed
response's own next link either stops or advances the page by one; and
following next links terminates — after finitely many steps the chain reaches
a 404 or a response with `next = null`. -/
theorem next_link_follow_terminates {db : Database} {root et : String}
    {y : Int} {a : Area} {filt : Option (Area × String)} {page per_page : Int}
    {allR : Bool} {env : Envelope}
    (hpage : 0 ≤ page)
    (h : handleParsed db root et y a none filt page per_page allR =
      .ok (.collection env))
    (hnext : env.next.isSome = true) :
    env.next = some (nextUrl root et y a (page + 1)) ∧
    (follow db root et y a (page + 1) = .error notFound ∨
      ∃ e2, follow db root et y a (page + 1) = .ok (.collection e2) ∧
        e2.results ≠ []) ∧
    (∀ (q : Int) e2, follow db root et y a q = .ok (.collection e2) →
      e2.next = none ∨ e2.next = some (nextUrl root et y a (q + 1))) ∧
    (∃ n : Nat, follow db root et y a (page + 1 + n) = .error notFound ∨
      ∃ e3, follow db root et y a (page + 1 + n) = .ok (.collection e3) ∧
        e3.next = none) := by
  refine ⟨?_, ?_, ?_, ?_⟩
  · obtain ⟨rows, _, _, _, hn, _⟩ := handleParsed_ok_collection h
    rcases hc : hasNext rows.length page per_page with _ | _
    · rw [hn, if_neg (by simp [hc])] at hnext
      cases hnext
    · rw [hn, if_pos hc]
  · rcases follow_cases db root et y a (page + 1) with hf | ⟨e2, hf, hne, _, _⟩
    · exact Or.inl hf
    · exact Or.inr ⟨e2, hf, hne⟩
  · intro q e2 he
    rcases follow_cases db root et y a q with hf | ⟨e2x, hf, _, _, hn⟩
    · rw [he] at hf; cases hf
    · rw [he] at hf
      injection hf with hf
      injection hf with hf
      subst hf
      rcases hc : hasNext e2.count q 50 with _ | _
      · left
        rw [hn, if_neg (by simp [hc])]
      · right
        rw [hn, if_pos hc]
  · set c := ((db.table a).filter (fun r => r.year == y)).length with hcdef
    refine ⟨c, ?_⟩
    rcases follow_cases db root et y a (page + 1 + c) with hf | ⟨e3, hf, _, hcount, hn⟩
    · exact Or.inl hf
    · right
      refine ⟨e3, hf, ?_⟩
      have hfalse : hasNext e3.count (page + 1 + c) 50 = false := by
        rw [hcount, ← hcdef]
        simp only [hasNext, decide_eq_false_iff_not, not_lt]
        omega
      rw [hn, if_neg (by simp [hfalse])]

set_option maxRecDepth 40000 in
/-- C3 witness: from page 0 of 120 rows at `per_page = 50`, the next link
points at page 1; following it (which the raw query `page=1` also denotes)
returns further results, and the chain terminates. -/
theorem next_link_follow_terminates_witness :
    ∃ env, handleParsed db120 rootUrl "provincial" 1999 .province none none
        0 50 false = .ok (.collection env) ∧
      env.next = some (nextUrl rootUrl "provincial" 1999 .province 1) ∧
      (follow db120 rootUrl "provincial" 1999 .province 1 = .error notFound ∨
        ∃ e2, follow db120 rootUrl "provincial" 1999 .province 1 =
          .ok (.collection e2) ∧ e2.results ≠ []) ∧
      (∃ n : Nat, follow db120 rootUrl "provincial" 1999 .province (1 + n) =
          .error notFound ∨
        ∃ e3, follow db120 rootUrl "provincial" 1999 .province (1 + n) =
          .ok (.collection e3) ∧ e3.next = none) ∧
      results_by_area db120 rootUrl "provincial" "1999" "province" none
        { page := some "1" } = follow db120 rootUrl "provincial" 1999 .province 1 := by
  have H := @next_link_follow_terminates db120 rootUrl "provincial" 1999
    .province none 0 50 false _ (by decide) (by rfl) (by decide)
  exact ⟨_, rfl, H.1, H.2.1, H.2.2.2, by decide⟩

/-- C3 counterexample: a response generated with `per_page = 1` at page 1 of
three rows carries a next link, but the request that link denotes (page 2 at
the default `per_page = 50`) fails with 404 — neither further results nor a
`next = null` response, refuting the claim as stated. -/
theorem next_link_follow_can_404 :
    (∃ env, handleParsed db3 rootUrl "provincial" 1999 .province none none
        1 1 false = .ok (.collection env) ∧
      env.next = some (nextUrl rootUrl "provincial" 1999 .province 2)) ∧
    follow db3 rootUrl "provincial" 1999 .province 2 = .error notFound :=
  ⟨⟨_, rfl, by decide⟩, by decide⟩

end ElectionsApi
